import Mathlib

/-!
Verification development for `gitcheck.py`, a concurrent GitHub token checker.

The embedding models, faithfully to the source:
- `check_token` (gitcheck.py lines 63-104): per-credential validation with
  rate-limit pause-and-retry, pacing sleep and exception capture;
- the token-list parsing and empty-list refusal in `main` (lines 134-139);
- the fan-out over tokens and the valid/invalid aggregation (lines 148-161).

HTTP transport is modelled as a function from attempt index to either an
exception description or a `Response`; side effects (requests, sleeps) are
recorded in an explicit effect trace.  Wall-clock time is the integer `now`
(Python `int(time.time())`).  Thread-pool completion order is abstracted as
an arbitrary permutation of the per-token result list.
-/

/-- Result of Python `resp.json()` followed by `data.get("login")` /
`data.get("id")`: the fields of interest of the parsed JSON body, each
absent when the key is missing. -/
structure JsonUser where
  login : Option String
  id : Option Int
deriving DecidableEq

/-- An HTTP response as `check_token` observes it: status code, the three
headers the code reads (absent headers are `none`), the body text, and the
outcome of `resp.json()` (`Except.error e` models the parse raising an
exception described by `e`). -/
structure Response where
  status : Nat
  rlRemaining : Option String
  rlReset : Option String
  oauthScopes : Option String
  body : String
  json : Except String JsonUser

/-- The dictionary returned by `check_token` (gitcheck.py lines 90-104):
keys `token`, `full_token`, `valid`, `login`, `id`, `scopes`, `message`,
with Python `None` as `Option.none`. -/
structure CheckResult where
  token : String
  full_token : String
  valid : Bool
  login : Option String
  id : Option Int
  scopes : Option String
  message : Option String
deriving DecidableEq

/-- Observable side effects of one `check_token` call, in program order:
an HTTP GET (attempt 0 is line 69, attempt 1 the retry at line 78), the
rate-limit sleep `time.sleep(wait + 1)` of line 77 with its duration, and
the pacing sleep `time.sleep(delay)` of line 79. -/
inductive Effect where
  | httpGet (attempt : Nat)
  | rateSleep (duration : Int)
  | paceSleep
deriving DecidableEq

/-- Python `s.strip()`: remove leading and trailing whitespace. -/
def pyStrip (s : String) : String :=
  (List.rdropWhile Char.isWhitespace (s.toList.dropWhile Char.isWhitespace)).asString

/-- Python `s[:n]` on a string: the first `n` characters (all of `s` when it
is shorter). -/
def sliceTo (s : String) (n : Nat) : String :=
  (s.toList.take n).asString

/-- Value of a non-empty string of decimal digits (`none` otherwise). -/
def digitsVal (l : List Char) : Option Nat :=
  match l with
  | [] => none
  | _ =>
    if l.all Char.isDigit then
      some (l.foldl (fun acc c => acc * 10 + (c.toNat - 48)) 0)
    else none

/-- Python `int(s)` on a header value: surrounding whitespace is stripped,
an optional sign precedes the decimal digits, and `none` models `int`
raising `ValueError` on a malformed literal. -/
def pyInt (s : String) : Option Int :=
  match (pyStrip s).toList with
  | '-' :: ds => (digitsVal ds).map fun n => -(n : Int)
  | '+' :: ds => (digitsVal ds).map fun n => (n : Int)
  | ds => (digitsVal ds).map fun n => (n : Int)

/-- Description of the `ValueError` raised by Python `int(s)` on a malformed
literal (its exact text is irrelevant to the spec; only that a message
exists). -/
def pyIntErr (s : String) : String :=
  "invalid literal for int() with base 10: " ++ s

/-- Gitcheck.py line 83: parse the `X-OAuth-Scopes` header value:
`[s.strip() for s in raw.split(',') if s.strip()]`. -/
def parse_scopes (raw : String) : List String :=
  (((raw.toList.splitOn ',').map List.asString).filter
      fun t => !(pyStrip t).isEmpty).map pyStrip

/-- Python `",".join(scopes) or 'none'` (gitcheck.py lines 85 and 92). -/
def joinOrNone (scopes : List String) : String :=
  let j := String.intercalate "," scopes
  if j = "" then "none" else j

/-- Gitcheck.py lines 81-100: classification of the (possibly retried)
response by status code.  `display_token` and `token` are the values bound
at lines 65-66; a `json` parse failure is caught by the `except` at line
101 and becomes the `Error:` result. -/
def classify (display_token token : String) (min_scopes : List String)
    (resp : Response) : CheckResult :=
  if resp.status == 200 then
    match resp.json with
    | .error e =>
      ⟨display_token, token, false, none, none, none, some ("Error: " ++ e)⟩
    | .ok data =>
      let scopes := parse_scopes (resp.oauthScopes.getD "")
      if !min_scopes.isEmpty && !(min_scopes.all fun s => scopes.contains s) then
        ⟨display_token, token, false, data.login, data.id,
          some (joinOrNone scopes),
          some ("Insufficient scopes: " ++ joinOrNone scopes)⟩
      else
        ⟨display_token, token, true, data.login, data.id,
          some (joinOrNone scopes), none⟩
  else if resp.status == 401 then
    ⟨display_token, token, false, none, none, none,
      some "Unauthorized / invalid"⟩
  else
    ⟨display_token, token, false, none, none, none,
      some ("HTTP " ++ toString resp.status ++ ": " ++ sliceTo resp.body 80)⟩

/-- Gitcheck.py lines 75-78: the sleep-then-retry once the rate-limit
condition is established, with `wait = max(0, reset - int(time.time()))`
and `time.sleep(wait + 1)`. -/
def rl_retry_step (transport : Nat → Except String Response) (now reset : Int) :
    Except String Response × List Effect :=
  let wait : Int := max 0 (reset - now)
  match transport 1 with
  | .error e =>
    (.error e, [Effect.httpGet 0, Effect.rateSleep (wait + 1), Effect.httpGet 1])
  | .ok resp2 =>
    (.ok resp2, [Effect.httpGet 0, Effect.rateSleep (wait + 1), Effect.httpGet 1])

/-- Gitcheck.py lines 69-78: the initial request and rate-limit handling.
Returns either the response that reaches classification or the description
of the exception raised (transport failure, or `ValueError` from `int()`
on a malformed rate-limit header), together with the effect trace so far.
A `403` with the remaining-quota header present has both `X-RateLimit-Remaining`
and `X-RateLimit-Reset` parsed by `int` (an absent reset header defaults
to `0`), and retries exactly once when the remaining quota is `0`. -/
def rl_phase (transport : Nat → Except String Response) (now : Int) :
    Except String Response × List Effect :=
  match transport 0 with
  | .error e => (.error e, [Effect.httpGet 0])
  | .ok resp =>
    if resp.status == 403 then
      match resp.rlRemaining with
      | none => (.ok resp, [Effect.httpGet 0])
      | some remStr =>
        match pyInt remStr with
        | none => (.error (pyIntErr remStr), [Effect.httpGet 0])
        | some remaining =>
          match resp.rlReset with
          | none =>
            if remaining == 0 then rl_retry_step transport now 0
            else (.ok resp, [Effect.httpGet 0])
          | some rv =>
            match pyInt rv with
            | none => (.error (pyIntErr rv), [Effect.httpGet 0])
            | some reset =>
              if remaining == 0 then rl_retry_step transport now reset
              else (.ok resp, [Effect.httpGet 0])
    else (.ok resp, [Effect.httpGet 0])

/-- Gitcheck.py lines 63-104, `check_token`: strip the token, build the
display token (`token[:6]` plus the ellipsis marker when masking), run the
request with rate-limit handling, sleep `delay` (recorded as
`Effect.paceSleep`) once a response survives to classification, classify,
and catch every exception into the `Error:` result. -/
def check_token (transport : Nat → Except String Response) (now : Int)
    (token0 : String) (min_scopes : List String) (mask : Bool) :
    CheckResult × List Effect :=
  let token := pyStrip token0
  let display_token := if mask then sliceTo token 6 ++ "…" else token
  match rl_phase transport now with
  | (.error e, effs) =>
    (⟨display_token, token, false, none, none, none, some ("Error: " ++ e)⟩, effs)
  | (.ok resp, effs) =>
    (classify display_token token min_scopes resp, effs ++ [Effect.paceSleep])

/-- Gitcheck.py line 136: `[t.strip() for t in text.splitlines() if t.strip()]`.
Line splitting is modelled on the newline character; the `\r` line-end
variants of `splitlines` only add blank segments, which the filter drops. -/
def parse_tokens (text : String) : List String :=
  (((text.toList.splitOn '\n').map List.asString).filter
      fun t => !(pyStrip t).isEmpty).map pyStrip

/-- Gitcheck.py lines 148-152: one `check_token` call is submitted per input
token (duplicates included); each token's call runs against the shared
session under an environment `world` giving that token's transport
behaviour and clock.  The list below is the multiset of results the pool
produces; `as_completed` delivers some permutation of it. -/
def run_results (tokens : List String)
    (world : String → (Nat → Except String Response) × Int)
    (min_scopes : List String) (mask : Bool) : List CheckResult :=
  tokens.map fun t => (check_token (world t).1 (world t).2 t min_scopes mask).1

/-- Gitcheck.py lines 136-161 of `main`, reduced to its engine decisions:
parse the tokens file, exit with status 1 when no token remains
(`sys.exit(1)` at line 139, before any work is submitted), otherwise run
every check.  `Except.error c` models `sys.exit(c)`. -/
def main_run (text : String)
    (world : String → (Nat → Except String Response) × Int)
    (min_scopes : List String) (mask : Bool) : Except Nat (List CheckResult) :=
  let tokens := parse_tokens text
  if tokens.isEmpty then Except.error 1
  else Except.ok (run_results tokens world min_scopes mask)

/-- Has the rate-limit phase delivered a response to classification (no
exception raised before the pacing sleep)? -/
def rl_ok (transport : Nat → Except String Response) (now : Int) : Bool :=
  ((rl_phase transport now).1.toOption).isSome

/-- The decision table of the rate-limit branch (gitcheck.py lines 71-78),
restated from the response data alone: the retry request is issued exactly
when the first attempt returns a response with status 403 whose
`X-RateLimit-Remaining` header is present and parses to 0, and whose
`X-RateLimit-Reset` header, when present, parses as an integer (`int()`
raising on either header aborts the call before any retry). -/
def rl_retry_cond (transport : Nat → Except String Response) : Bool :=
  match transport 0 with
  | .error _ => false
  | .ok resp =>
    resp.status == 403 &&
      match resp.rlRemaining with
      | none => false
      | some remStr =>
        match pyInt remStr with
        | none => false
        | some remaining =>
          remaining == 0 &&
            match resp.rlReset with
            | none => true
            | some rv => (pyInt rv).isSome

/-- The reset time used for the rate-limit wait: the parsed
`X-RateLimit-Reset` header of the first response, `0` when the header is
absent (Python `int(resp.headers.get("X-RateLimit-Reset", 0))`). -/
def rl_reset_val (transport : Nat → Except String Response) : Int :=
  match transport 0 with
  | .error _ => 0
  | .ok resp =>
    match resp.rlReset with
    | none => 0
    | some rv => (pyInt rv).getD 0

/-! ## Helper lemmas -/

/-- Dropping leading `p`-elements is stable under a further trailing drop:
the head of `rdropWhile p (dropWhile p l)` still falsifies `p`. -/
lemma dropWhile_of_rdropWhile (p : α → Bool) (l : List α) :
    List.dropWhile p (List.rdropWhile p (List.dropWhile p l))
      = List.rdropWhile p (List.dropWhile p l) := by
  obtain ⟨t, ht⟩ := List.rdropWhile_prefix (p := p) (l := List.dropWhile p l)
  cases hr : List.rdropWhile p (List.dropWhile p l) with
  | nil => simp
  | cons a r =>
    rw [hr] at ht
    have hm := List.dropWhile_idempotent (p := p) (l := l)
    rw [← ht] at hm
    have hpa : p a = false := by
      by_contra hc
      have hpa2 : p a = true := by simpa using hc
      rw [List.cons_append, List.dropWhile_cons, hpa2] at hm
      simp only [if_true] at hm
      have hlen := (List.dropWhile_sublist (l := r ++ t) p).length_le
      rw [hm] at hlen
      simp at hlen
    simp [List.dropWhile_cons, hpa]

/-- Python `strip` is idempotent. -/
lemma pyStrip_idem (s : String) : pyStrip (pyStrip s) = pyStrip s := by
  show pyStrip ((List.rdropWhile Char.isWhitespace
      (s.toList.dropWhile Char.isWhitespace)).asString) = _
  unfold pyStrip
  have hx : ∀ x : List Char, (List.asString x).toList = x := fun _ => rfl
  rw [hx]
  congr 1
  rw [dropWhile_of_rdropWhile, List.rdropWhile_idempotent]

/-- Every element produced by `parse_scopes` is a trimmed, non-empty token. -/
lemma parse_scopes_mem (raw : String) :
    ∀ s ∈ parse_scopes raw, pyStrip s = s ∧ s.isEmpty = false := by
  intro s hs
  unfold parse_scopes at hs
  simp only [List.mem_map, List.mem_filter] at hs
  obtain ⟨t, ⟨-, ht⟩, rfl⟩ := hs
  refine ⟨pyStrip_idem t, ?_⟩
  simpa using ht

/-- Splitting a list by a Boolean predicate partitions its length. -/
lemma length_filter_add_length_filter_not (l : List α) (p : α → Bool) :
    (l.filter p).length + (l.filter fun a => !(p a)).length = l.length := by
  induction l with
  | nil => rfl
  | cons a l ih =>
    cases h : p a <;> simp [List.filter_cons, h] <;> omega

lemma rl_phase_snd (tr : Nat → Except String Response) (now : Int) :
    (rl_phase tr now).2 =
      if rl_retry_cond tr then
        [Effect.httpGet 0, Effect.rateSleep (max 0 (rl_reset_val tr - now) + 1),
         Effect.httpGet 1]
      else [Effect.httpGet 0] := by
  unfold rl_phase rl_retry_cond rl_reset_val rl_retry_step
  cases h0 : tr 0 with
  | error e => simp
  | ok resp =>
    by_cases h403 : resp.status == 403
    · cases hrem : resp.rlRemaining with
      | none => simp [h403, hrem]
      | some remStr =>
        cases hpi : pyInt remStr with
        | none => simp [h403, hrem, hpi]
        | some remaining =>
          cases hres : resp.rlReset with
          | none =>
            by_cases hz : remaining = 0
            · subst hz
              cases h1 : tr 1 <;> simp [h403, hrem, hpi, hres, h1]
            · simp [h403, hrem, hpi, hres, hz]
          | some rv =>
            cases hpr : pyInt rv with
            | none => simp [h403, hrem, hpi, hres, hpr]
            | some reset =>
              by_cases hz : remaining = 0
              · subst hz
                cases h1 : tr 1 <;> simp [h403, hrem, hpi, hres, hpr, h1]
              · simp [h403, hrem, hpi, hres, hpr, hz]
    · simp [h403]

lemma check_token_snd (tr : Nat → Except String Response) (now : Int)
    (tok : String) (ms : List String) (mask : Bool) :
    (check_token tr now tok ms mask).2 =
      (rl_phase tr now).2 ++ (if rl_ok tr now then [Effect.paceSleep] else []) := by
  unfold check_token rl_ok
  cases hp : rl_phase tr now with
  | mk fst snd =>
    cases fst <;> simp [hp, Except.toOption]

lemma check_token_fst_ok (tr : Nat → Except String Response) (now : Int)
    (tok : String) (ms : List String) (mask : Bool) (resp : Response)
    (h : (rl_phase tr now).1 = Except.ok resp) :
    (check_token tr now tok ms mask).1 =
      classify (if mask then sliceTo (pyStrip tok) 6 ++ "…" else pyStrip tok)
        (pyStrip tok) ms resp := by
  unfold check_token
  cases hp : rl_phase tr now with
  | mk fst snd =>
    rw [hp] at h
    simp only at h
    cases fst with
    | error e => simp at h
    | ok r =>
      cases h
      simp

lemma check_token_fst_err (tr : Nat → Except String Response) (now : Int)
    (tok : String) (ms : List String) (mask : Bool) (e : String)
    (h : (rl_phase tr now).1 = Except.error e) :
    (check_token tr now tok ms mask).1 =
      ⟨if mask then sliceTo (pyStrip tok) 6 ++ "…" else pyStrip tok, pyStrip tok,
        false, none, none, none, some ("Error: " ++ e)⟩ := by
  unfold check_token
  cases hp : rl_phase tr now with
  | mk fst snd =>
    rw [hp] at h
    simp only at h
    cases fst with
    | ok r => simp at h
    | error e2 =>
      cases h
      simp

lemma classify_valid_message (d t : String) (ms : List String) (resp : Response) :
    ((classify d t ms resp).valid = true ∧ (classify d t ms resp).message = none) ∨
    ((classify d t ms resp).valid = false ∧
      (classify d t ms resp).message.isSome = true) := by
  unfold classify
  by_cases h200 : resp.status == 200
  · simp only [h200, if_true]
    cases resp.json with
    | error e => simp
    | ok data =>
      simp only
      split
      · simp
      · simp
  · by_cases h401 : resp.status == 401 <;> simp [h200, h401]

lemma classify_fields (d t : String) (ms : List String) (resp : Response) :
    (classify d t ms resp).token = d ∧ (classify d t ms resp).full_token = t := by
  unfold classify
  by_cases h200 : resp.status == 200
  · simp only [h200, if_true]
    cases resp.json with
    | error e => simp
    | ok data =>
      simp only
      split
      · simp
      · simp
  · by_cases h401 : resp.status == 401 <;> simp [h200, h401]

lemma check_token_fields (tr : Nat → Except String Response) (now : Int)
    (tok : String) (ms : List String) (mask : Bool) :
    (check_token tr now tok ms mask).1.token
        = (if mask then sliceTo (pyStrip tok) 6 ++ "…" else pyStrip tok) ∧
    (check_token tr now tok ms mask).1.full_token = pyStrip tok := by
  cases hfst : (rl_phase tr now).1 with
  | error e => rw [check_token_fst_err tr now tok ms mask e hfst]; exact ⟨rfl, rfl⟩
  | ok resp =>
    rw [check_token_fst_ok tr now tok ms mask resp hfst]
    exact classify_fields _ _ _ _

/-! ## Concrete fixtures for witnesses and counterexamples -/

/-- A 200 response granting scope `repo`, with a parseable JSON body. -/
def respOkRepo : Response :=
  ⟨200, none, none, some "repo", "{}", Except.ok ⟨some "octocat", some 1⟩⟩

/-- Transport that always answers with `respOkRepo`. -/
def trOkRepo : Nat → Except String Response := fun _ => Except.ok respOkRepo

/-- A 401 response. -/
def resp401 : Response :=
  ⟨401, none, none, none, "Unauthorized", Except.error "Expecting value"⟩

/-- Transport that always answers with `resp401`. -/
def tr401c : Nat → Except String Response := fun _ => Except.ok resp401

/-- A rate-limited 403 response: `X-RateLimit-Remaining: 0` present but no
`X-RateLimit-Reset` header. -/
def respRl403 : Response :=
  ⟨403, some "0", none, none, "rate limited", Except.error "x"⟩

/-- Transport that always answers with `respRl403`. -/
def trRl403 : Nat → Except String Response := fun _ => Except.ok respRl403

/-- A 200 response whose body is not JSON (`resp.json()` raises). -/
def respBadJson : Response :=
  ⟨200, none, none, none, "<!DOCTYPE html>",
    Except.error "Expecting value: line 1 column 1 (char 0)"⟩

/-- Transport that always answers with `respBadJson`. -/
def trBadJson : Nat → Except String Response := fun _ => Except.ok respBadJson

/-- Transport whose requests always raise a connection exception. -/
def trConnErr : Nat → Except String Response := fun _ => Except.error "connection timed out"

/-- The spec scenario environment: `tokA` gets the 200/`repo` response,
every other token the 401 response. -/
def worldAB : String → (Nat → Except String Response) × Int :=
  fun t => (fun _ => if t = "tokA" then Except.ok respOkRepo else Except.ok resp401, 0)

/-! ## Claims -/

/-- C2: for every credential, policy and transport behaviour (including any
exception raised by the HTTP call, the rate-limit header parsing or the
body parsing), `check_token` returns a `CheckResult` — it is a total
function of the behaviour, so no exception escapes its boundary — and
every failure mode yields `valid = false` with a non-null message, every
success `valid = true` with a null message. -/
theorem c2_checker_boundary (tr : Nat → Except String Response) (now : Int)
    (tok : String) (ms : List String) (mask : Bool) :
    ((check_token tr now tok ms mask).1.valid = true ∧
      (check_token tr now tok ms mask).1.message = none) ∨
    ((check_token tr now tok ms mask).1.valid = false ∧
      (check_token tr now tok ms mask).1.message.isSome = true) := by
  cases hfst : (rl_phase tr now).1 with
  | error e =>
    rw [check_token_fst_err tr now tok ms mask e hfst]
    right
    exact ⟨rfl, rfl⟩
  | ok resp =>
    rw [check_token_fst_ok tr now tok ms mask resp hfst]
    exact classify_valid_message _ _ _ _

/-- C7: for every trimmed credential, the `full_token` field is the full
untruncated credential whatever the masking setting, and with
`mask = true` the display field is the first at most 6 characters of the
credential followed by the truncation marker. -/
theorem c7_masking (tr : Nat → Except String Response) (now : Int)
    (tok : String) (ms : List String) (mask : Bool)
    (htrim : pyStrip tok = tok) :
    (check_token tr now tok ms mask).1.full_token = tok ∧
    (sliceTo tok 6).length ≤ 6 ∧
    (mask = true →
      (check_token tr now tok ms mask).1.token = sliceTo tok 6 ++ "…") := by
  obtain ⟨h1, h2⟩ := check_token_fields tr now tok ms mask
  rw [htrim] at h1 h2
  refine ⟨h2, ?_, fun hm => by rw [h1, hm]; simp⟩
  have hlen : (sliceTo tok 6).length = (tok.toList.take 6).length := rfl
  rw [hlen, List.length_take]
  omega

/-- Witness for C7 at a concrete 13-character credential. -/
theorem c7_masking_witness :
    pyStrip "ghp_abcdef123" = "ghp_abcdef123" ∧
    ((check_token trOkRepo 0 "ghp_abcdef123" [] true).1.full_token = "ghp_abcdef123" ∧
     (sliceTo "ghp_abcdef123" 6).length ≤ 6 ∧
     (true = true →
       (check_token trOkRepo 0 "ghp_abcdef123" [] true).1.token
         = sliceTo "ghp_abcdef123" 6 ++ "…")) :=
  ⟨by decide, c7_masking trOkRepo 0 "ghp_abcdef123" [] true (by decide)⟩

/-- C8: when the parsed credential sequence is empty, the engine refuses to
run: `main_run` exits with the non-zero status 1 and produces no result
list. -/
theorem c8_empty_refusal (text : String)
    (world : String → (Nat → Except String Response) × Int)
    (ms : List String) (mask : Bool) (h : parse_tokens text = []) :
    main_run text world ms mask = Except.error 1 := by
  unfold main_run
  simp [h]

/-- Witness for C8 on a file of blank lines only. -/
theorem c8_empty_refusal_witness :
    parse_tokens "\n   \n\t\n" = [] ∧
    main_run "\n   \n\t\n" (fun _ => (trConnErr, 0)) [] false = Except.error 1 :=
  ⟨by decide, c8_empty_refusal _ _ _ _ (by decide)⟩

/-- C1: for every non-empty token list of size K and every completed run
(modelled as any completion permutation of the one-result-per-token list
the pool produces), exactly K results exist and the aggregator's `valid`
and `invalid` filters partition them, their lengths summing to K. -/
theorem c1_exactly_k_results (tokens : List String)
    (world : String → (Nat → Except String Response) × Int)
    (ms : List String) (mask : Bool) (results : List CheckResult)
    (_hne : tokens ≠ [])
    (hcomp : results.Perm (run_results tokens world ms mask)) :
    results.length = tokens.length ∧
    (results.filter fun r => r.valid).length
      + (results.filter fun r => !r.valid).length = tokens.length := by
  have hlen : results.length = tokens.length := by
    rw [hcomp.length_eq]
    unfold run_results
    exact List.length_map _ _
  refine ⟨hlen, ?_⟩
  have hpart := length_filter_add_length_filter_not results (fun r => r.valid)
  rw [hlen] at hpart
  exact hpart

/-- Witness for C1 on the spec scenario: `["tokA", "tokB"]` against an
environment answering 200/`repo` for `tokA` and 401 for `tokB`. -/
theorem c1_exactly_k_results_witness :
    (["tokA", "tokB"] : List String) ≠ [] ∧
    ((run_results ["tokA", "tokB"] worldAB ["repo"] false).length
        = (["tokA", "tokB"] : List String).length ∧
     ((run_results ["tokA", "tokB"] worldAB ["repo"] false).filter
        fun r => r.valid).length
      + ((run_results ["tokA", "tokB"] worldAB ["repo"] false).filter
          fun r => !r.valid).length = (["tokA", "tokB"] : List String).length) :=
  ⟨by decide,
   c1_exactly_k_results ["tokA", "tokB"] worldAB ["repo"] false _ (by decide)
     (List.Perm.refl _)⟩

/-- C5: for every 200 response that reaches classification and whose body
parses, the scopes header is parsed into an ordered list of trimmed
non-empty tokens; when `min_scopes` is non-empty and not a subset of the
granted scopes the result is invalid with message
`Insufficient scopes: <comma-joined scopes or 'none'>`, otherwise the
result is valid with a null message. -/
theorem c5_scope_classification (tr : Nat → Except String Response) (now : Int)
    (tok : String) (ms : List String) (mask : Bool) (resp : Response)
    (data : JsonUser) (hfin : (rl_phase tr now).1 = Except.ok resp)
    (h200 : resp.status = 200) (hjson : resp.json = Except.ok data) :
    (∀ s ∈ parse_scopes (resp.oauthScopes.getD ""),
        pyStrip s = s ∧ s.isEmpty = false) ∧
    (if !ms.isEmpty
        && !(ms.all fun s => (parse_scopes (resp.oauthScopes.getD "")).contains s) then
      (check_token tr now tok ms mask).1.valid = false ∧
      (check_token tr now tok ms mask).1.message
        = some ("Insufficient scopes: "
            ++ joinOrNone (parse_scopes (resp.oauthScopes.getD "")))
     else
      (check_token tr now tok ms mask).1.valid = true ∧
      (check_token tr now tok ms mask).1.message = none) := by
  refine ⟨parse_scopes_mem _, ?_⟩
  rw [check_token_fst_ok tr now tok ms mask resp hfin]
  unfold classify
  simp only [h200, hjson]
  cases hc : (!ms.isEmpty
      && !(ms.all fun s => (parse_scopes (resp.oauthScopes.getD "")).contains s)) <;>
    simp [hc]

/-- Witness for C5 at the spec's concrete scenario: required scopes
`["repo", "admin"]` against granted scopes `repo` yields the invalid
result with message `Insufficient scopes: repo`. -/
theorem c5_scope_classification_witness :
    ((rl_phase trOkRepo 0).1 = Except.ok respOkRepo ∧ respOkRepo.status = 200 ∧
      respOkRepo.json = Except.ok ⟨some "octocat", some 1⟩) ∧
    ((check_token trOkRepo 0 "tokA" ["repo", "admin"] false).1.valid = false ∧
     (check_token trOkRepo 0 "tokA" ["repo", "admin"] false).1.message
        = some "Insufficient scopes: repo") := by
  refine ⟨⟨rfl, rfl, rfl⟩, ?_⟩
  have h := (c5_scope_classification trOkRepo 0 "tokA" ["repo", "admin"] false
    respOkRepo ⟨some "octocat", some 1⟩ rfl rfl rfl).2
  revert h
  decide

/-- C6: every response that reaches classification with status 401 yields
the invalid result with message `Unauthorized / invalid`, and every other
non-200 status yields the invalid result with message
`HTTP <code>: <first 80 chars of body>`. -/
theorem c6_status_classification (tr : Nat → Except String Response) (now : Int)
    (tok : String) (ms : List String) (mask : Bool) (resp : Response)
    (hfin : (rl_phase tr now).1 = Except.ok resp) (hne : resp.status ≠ 200) :
    (check_token tr now tok ms mask).1.valid = false ∧
    (check_token tr now tok ms mask).1.message =
      some (if resp.status == 401 then "Unauthorized / invalid"
            else "HTTP " ++ toString resp.status ++ ": " ++ sliceTo resp.body 80) := by
  rw [check_token_fst_ok tr now tok ms mask resp hfin]
  unfold classify
  have h200 : (resp.status == 200) = false := by simpa using hne
  simp only [h200]
  by_cases h401 : resp.status == 401 <;> simp [h401]

/-- Witness for C6 at a 401 response. -/
theorem c6_status_classification_witness :
    ((rl_phase tr401c 0).1 = Except.ok resp401 ∧ resp401.status ≠ 200) ∧
    ((check_token tr401c 0 "tokB" [] false).1.valid = false ∧
     (check_token tr401c 0 "tokB" [] false).1.message
        = some "Unauthorized / invalid") := by
  refine ⟨⟨rfl, by decide⟩, ?_⟩
  have h := c6_status_classification tr401c 0 "tokB" [] false resp401 rfl (by decide)
  revert h
  decide

/-- C10: a 200 response whose body fails to parse as JSON yields the
exception-branch result, invalid with message `Error: <description>` —
so a 200 status alone never guarantees a valid result. -/
theorem c10_bad_json (tr : Nat → Except String Response) (now : Int)
    (tok : String) (ms : List String) (mask : Bool) (resp : Response) (e : String)
    (hfin : (rl_phase tr now).1 = Except.ok resp) (h200 : resp.status = 200)
    (hjson : resp.json = Except.error e) :
    (check_token tr now tok ms mask).1.valid = false ∧
    (check_token tr now tok ms mask).1.message = some ("Error: " ++ e) := by
  rw [check_token_fst_ok tr now tok ms mask resp hfin]
  unfold classify
  simp [h200, hjson]

/-- Witness for C10 at a 200 response carrying an HTML body. -/
theorem c10_bad_json_witness :
    ((rl_phase trBadJson 0).1 = Except.ok respBadJson ∧
      respBadJson.status = 200 ∧
      respBadJson.json = Except.error "Expecting value: line 1 column 1 (char 0)") ∧
    ((check_token trBadJson 0 "tokC" [] false).1.valid = false ∧
     (check_token trBadJson 0 "tokC" [] false).1.message
        = some "Error: Expecting value: line 1 column 1 (char 0)") := by
  refine ⟨⟨rfl, rfl, rfl⟩, ?_⟩
  have h := c10_bad_json trBadJson 0 "tokC" [] false respBadJson
    "Expecting value: line 1 column 1 (char 0)" rfl rfl rfl
  revert h
  decide

/-- C3's statement as written: the pause-and-retry happens if and only if
the response is a 403 with a zero-remaining-quota header AND a reset-time
header is present. -/
def c3_claim (tr : Nat → Except String Response) (now : Int) (tok : String)
    (ms : List String) (mask : Bool) : Prop :=
  Effect.httpGet 1 ∈ (check_token tr now tok ms mask).2 ↔
    ∃ resp, tr 0 = Except.ok resp ∧ resp.status = 403 ∧
      (∃ v, resp.rlRemaining = some v ∧ pyInt v = some 0) ∧
      resp.rlReset.isSome = true

/-- C3 counterexample: a 403 response with `X-RateLimit-Remaining: 0` but NO
`X-RateLimit-Reset` header still triggers the retry (the code defaults the
reset time to 0 instead of requiring the header), refuting the stated
"reset-time header is present" conjunct of the iff. -/
theorem c3_counterexample : ¬ c3_claim trRl403 100 "tok" [] false := by
  intro h
  obtain ⟨resp, hr, -, -, hreset⟩ := h.mp (by decide)
  have heq : respRl403 = resp :=
    Except.ok.inj (show Except.ok respRl403 = Except.ok resp from hr)
  rw [← heq] at hreset
  exact absurd hreset (by decide)

/-- C3 amended: the retry request is issued iff the first response is a 403
whose remaining-quota header is present and parses to 0 and whose
reset-time header, if present, parses as an integer (an absent reset
header counts as reset time 0); the retry happens at most once, and it is
preceded by exactly one suspension of `max 0 (reset - now) + 1` time
units. -/
theorem c3_retry_decision (tr : Nat → Except String Response) (now : Int)
    (tok : String) (ms : List String) (mask : Bool) :
    (Effect.httpGet 1 ∈ (check_token tr now tok ms mask).2
        ↔ rl_retry_cond tr = true) ∧
    (check_token tr now tok ms mask).2.count (Effect.httpGet 1) ≤ 1 ∧
    (check_token tr now tok ms mask).2.count
        (Effect.rateSleep (max 0 (rl_reset_val tr - now) + 1))
      = (if rl_retry_cond tr then 1 else 0) := by
  rw [check_token_snd, rl_phase_snd]
  cases hc : rl_retry_cond tr <;> cases ho : rl_ok tr now <;>
    simp [hc, ho, List.count_cons, List.count_append]

/-- C4 counterexample: when the HTTP call raises a transport exception, the
pacing sleep (`time.sleep(delay)`, line 79) is skipped — the `except`
branch returns without it, refuting "a sleep of perWorkerDelay occurs in
every execution". -/
theorem c4_counterexample :
    Effect.paceSleep ∉ (check_token trConnErr 0 "tok" [] false).2 := by
  decide

/-- C4 amended: the pacing sleep occurs exactly when no exception interrupts
the HTTP call or the rate-limit header handling (i.e. when a response
survives to classification), and in that case it is the last effect before
the function returns, after the (possibly retried) response. -/
theorem c4_pacing_sleep (tr : Nat → Except String Response) (now : Int)
    (tok : String) (ms : List String) (mask : Bool) :
    (Effect.paceSleep ∈ (check_token tr now tok ms mask).2 ↔ rl_ok tr now = true) ∧
    ((check_token tr now tok ms mask).2.getLast? = some Effect.paceSleep
        ↔ rl_ok tr now = true) := by
  rw [check_token_snd, rl_phase_snd]
  cases hc : rl_retry_cond tr <;> cases ho : rl_ok tr now <;> simp [hc, ho]

/-- C9's "empty if unknown" as written: whenever the scopes are unknown (no
response reached classification, a non-200 status, or no scopes header),
the `scopes` field holds the representation of the empty ordered scope set
(the empty comma-join `""`). -/
def c9_claim (tr : Nat → Except String Response) (now : Int) (tok : String)
    (ms : List String) (mask : Bool) : Prop :=
  ((rl_phase tr now).1.toOption = none ∨
    ∃ resp, (rl_phase tr now).1 = Except.ok resp ∧
      (resp.status ≠ 200 ∨ resp.oauthScopes = none)) →
  (check_token tr now tok ms mask).1.scopes = some ""

/-- C9 counterexample: on a 401 response the `scopes` field is Python `None`
(`Option.none`), not an empty scope collection, refuting "empty if
unknown" (on a 200 response without the scopes header the field is the
literal string `none`, also not empty). -/
theorem c9_counterexample : ¬ c9_claim tr401c 0 "tok" [] false := by
  intro h
  have hs := h (Or.inr ⟨resp401, rfl, Or.inl (by decide)⟩)
  exact absurd hs (by decide)

/-- C9 amended: the `scopes` field is the comma-join of the parsed scope
tokens — the string `none` when no non-empty token exists — for a 200
response whose body parses, and is null (`Option.none`) in every other
case (non-200 status, transport error, body-parse failure). -/
theorem c9_scopes_field (tr : Nat → Except String Response) (now : Int)
    (tok : String) (ms : List String) (mask : Bool) :
    (check_token tr now tok ms mask).1.scopes =
      match (rl_phase tr now).1 with
      | .error _ => none
      | .ok resp =>
        if resp.status == 200 then
          match resp.json with
          | .error _ => none
          | .ok _ => some (joinOrNone (parse_scopes (resp.oauthScopes.getD "")))
        else none := by
  cases hfst : (rl_phase tr now).1 with
  | error e => rw [check_token_fst_err tr now tok ms mask e hfst]
  | ok resp =>
    rw [check_token_fst_ok tr now tok ms mask resp hfst]
    unfold classify
    by_cases h200 : resp.status == 200
    · simp only [h200, if_true]
      cases resp.json with
      | error e => simp
      | ok data =>
        simp only
        split <;> simp
    · by_cases h401 : resp.status == 401 <;> simp [h200, h401]
